import Mathlib

/-!
Shallow embedding of the pricing/packaging engine of `bot_pro.py`:
geometry/packing (`vol`, `boxes_per_pallet_by_volume`,
`calculate_boxes_for_item`), palletization (`party_palletization`),
shipping-rate resolution (`party_shipping_cost`), per-line-item pricing
(`compute_sku_cost`) and the party-level aggregation performed inside
`format_report`.  Python floats are modelled as exact rationals (the spec
treats the arithmetic as full-precision real arithmetic), Python ints as
integers, dicts keyed by warehouse/service name as `String → Option _`
lookups, and raised `RuntimeError`s as `Except` errors.
-/

namespace FFCalc

/-- Dimensions: a (length, width, height) triple, as in the Python tuples. -/
abbrev Dims : Type := ℚ × ℚ × ℚ

/-- Source constant `BOX_PRICE = 110.0`. -/
def BOX_PRICE : ℚ := 110

/-- Source constant `BASE_PALLET_BOX = (60.0, 40.0, 40.0)`. -/
def BASE_PALLET_BOX : Dims := (60, 40, 40)

/-- Source constant `BASE_BOXES_PER_PALLET = 16`. -/
def BASE_BOXES_PER_PALLET : ℤ := 16

/-- `vol(d) = d[0] * d[1] * d[2]`. -/
def vol (d : Dims) : ℚ := d.1 * d.2.1 * d.2.2

/-- `boxes_per_pallet_by_volume`: capacity of a pallet in cartons of the
given dimensions; `max(1, floor(pallet_volume / box_volume))`, with the
guard returning `BASE_BOXES_PER_PALLET` when the carton volume is `≤ 0`. -/
def boxes_per_pallet_by_volume (box_dims : Dims) : ℤ :=
  let pallet_volume : ℚ := (BASE_BOXES_PER_PALLET : ℚ) * vol BASE_PALLET_BOX
  let box_volume : ℚ := vol box_dims
  if box_volume ≤ 0 then BASE_BOXES_PER_PALLET
  else max 1 ⌊pallet_volume / box_volume⌋

/-- `calculate_boxes_for_item(qty, item_dims, box_dims)`: returns
`(boxes, is_oversize, items_per_box)` exactly as the source does. -/
def calculate_boxes_for_item (qty : ℚ) (item_dims box_dims : Dims) :
    ℤ × Bool × ℚ :=
  if item_dims.1 > box_dims.1 ∨ item_dims.2.1 > box_dims.2.1 ∨
      item_dims.2.2 > box_dims.2.2 then
    (⌈qty⌉, true, 1)
  else
    let item_volume := vol item_dims
    let box_volume := vol box_dims
    let items_per_box : ℚ :=
      if item_volume ≤ 0 then 1
      else if box_volume / item_volume < 1 then 1
      else box_volume / item_volume
    (⌈qty / items_per_box⌉, false, items_per_box)

/-- The named numeric constants of the `CONST` dict, with their source
defaults available as `defaultConsts`. -/
structure Consts where
  pallet_threshold_boxes : ℚ
  pallet : ℚ
  stretch : ℚ
  to_tk_per_box : ℚ
deriving DecidableEq

/-- The defaults installed by the loader: threshold 10, pallet price 0,
stretch price 0, hub per-box rate 100. -/
def defaultConsts : Consts :=
  { pallet_threshold_boxes := 10, pallet := 0, stretch := 0,
    to_tk_per_box := 100 }

/-- `party_palletization(total_boxes, box_dims)`: returns
`(pallets, max_boxes_on_pallet, pallet_cost, stretch_cost)`. -/
def party_palletization (c : Consts) (total_boxes : ℤ) (box_dims : Dims) :
    ℤ × ℤ × ℚ × ℚ :=
  let threshold := c.pallet_threshold_boxes
  let pallet_price := c.pallet
  let stretch_price := c.stretch
  let max_on_pallet := boxes_per_pallet_by_volume box_dims
  if (total_boxes : ℚ) < threshold then (0, max_on_pallet, 0, 0)
  else
    let pallets := ⌈(total_boxes : ℚ) / (max_on_pallet : ℚ)⌉
    (pallets, max_on_pallet, (pallets : ℚ) * pallet_price,
      (pallets : ℚ) * stretch_price)

/-- One `TK_WAREHOUSES` record: optional per-box and per-pallet rates to
the warehouse, plus the entry fee (default `0.0`). -/
structure TKRate where
  to_warehouse_per_box : Option ℚ
  to_warehouse_per_pallet : Option ℚ
  entry_fee : ℚ
deriving DecidableEq

/-- One `SERVICES` record: unit price, category (`работа` = labor,
`расходники` = consumable) and the display unit label. -/
inductive Category where
  | rabota
  | rashodniki
deriving DecidableEq, BEq

/-- A priced service from the catalog. -/
structure Service where
  price : ℚ
  cat : Category
  unit : String
deriving DecidableEq

/-- The module-level catalog data: `SERVICES`, `FF_WAREHOUSES` (value is
the `ship_per_box` rate), `TK_WAREHOUSES`, and `CONST`. -/
structure Catalog where
  services : String → Option Service
  ff_warehouses : String → Option ℚ
  tk_warehouses : String → Option TKRate
  consts : Consts

/-- The two `RuntimeError`s raised by `party_shipping_cost`. -/
inductive ShipError where
  | missingRate
  | unknownWarehouse
deriving DecidableEq

/-- `party_shipping_cost(warehouse_name, total_boxes, pallets)`: resolves
TK first, then FF; returns the carrier tag and the cost, or the raised
error.  The TK leg mirrors
`if pallets > 0 and tk.get("to_warehouse_per_pallet") is not None`. -/
def party_shipping_cost (cat : Catalog) (warehouse_name : String)
    (total_boxes pallets : ℤ) : Except ShipError (String × ℚ) :=
  match cat.tk_warehouses warehouse_name with
  | some tk =>
      let to_tk : ℚ := (total_boxes : ℚ) * cat.consts.to_tk_per_box
      let entry : ℚ := tk.entry_fee
      let leg : Except ShipError ℚ :=
        match tk.to_warehouse_per_pallet with
        | some rate_p =>
            if 0 < pallets then Except.ok ((pallets : ℚ) * rate_p)
            else
              match tk.to_warehouse_per_box with
              | some rate_b => Except.ok ((total_boxes : ℚ) * rate_b)
              | none => Except.error ShipError.missingRate
        | none =>
            match tk.to_warehouse_per_box with
            | some rate_b => Except.ok ((total_boxes : ℚ) * rate_b)
            | none => Except.error ShipError.missingRate
      match leg with
      | Except.error e => Except.error e
      | Except.ok to_wh => Except.ok ("tk", to_tk + to_wh + entry)
  | none =>
      match cat.ff_warehouses warehouse_name with
      | none => Except.error ShipError.unknownWarehouse
      | some ship_per_box =>
          Except.ok ("ff", (total_boxes : ℚ) * ship_per_box)

/-- One line item (SKU) of a shipment, as consumed by `compute_sku_cost`. -/
structure Sku where
  qty : ℚ
  dimensions : Dims
  services_names : List String
deriving DecidableEq

/-- The dict returned by `compute_sku_cost` (display-only fields such as
the per-service row lists are omitted; they do not affect any cost). -/
structure SkuCalc where
  qty : ℚ
  boxes : ℤ
  items_per_box : ℚ
  is_oversize : Bool
  work_per_unit : ℚ
  cons_per_unit : ℚ
  work_total : ℚ
  cons_total : ℚ
  boxes_cost : ℚ
  sku_total_no_ship : ℚ
deriving DecidableEq

/-- One step of the service loop in `compute_sku_cost`: skip unknown
names, add the price to the consumable accumulator when the category is
`расходники` and to the labor accumulator otherwise. -/
def svc_fold (services : String → Option Service) (acc : ℚ × ℚ)
    (svc_name : String) : ℚ × ℚ :=
  match services svc_name with
  | none => acc
  | some s =>
      match s.cat with
      | Category.rashodniki => (acc.1, acc.2 + s.price)
      | Category.rabota => (acc.1 + s.price, acc.2)

/-- `compute_sku_cost(sku, box_dims, use_client_boxes)`. -/
def compute_sku_cost (services : String → Option Service) (sku : Sku)
    (box_dims : Dims) (use_client_boxes : Bool) : SkuCalc :=
  let qty := sku.qty
  let packed := calculate_boxes_for_item qty sku.dimensions box_dims
  let boxes := packed.1
  let is_oversize := packed.2.1
  let items_per_box := packed.2.2
  let acc := sku.services_names.foldl (svc_fold services) (0, 0)
  let work_per_unit := acc.1
  let cons_per_unit := acc.2
  let work_total := work_per_unit * qty
  let cons_total := cons_per_unit * qty
  let boxes_cost : ℚ :=
    if (!use_client_boxes) && (!is_oversize) then (boxes : ℚ) * BOX_PRICE
    else 0
  { qty := qty, boxes := boxes, items_per_box := items_per_box,
    is_oversize := is_oversize, work_per_unit := work_per_unit,
    cons_per_unit := cons_per_unit, work_total := work_total,
    cons_total := cons_total, boxes_cost := boxes_cost,
    sku_total_no_ship := work_total + cons_total + boxes_cost }

/-- The party-level result computed inside `format_report`. -/
structure PartyCalc where
  total_boxes : ℤ
  total_sum_no_ship : ℚ
  pallets : ℤ
  max_on_pallet : ℤ
  pallet_cost : ℚ
  stretch_cost : ℚ
  ship_kind : String
  ship_cost : ℚ
  party_total : ℚ
deriving DecidableEq

/-- The aggregation loop of `format_report`: per-SKU costs, summed boxes
and subtotals, palletization, shipping, grand total. -/
def party_calc (cat : Catalog) (skus : List Sku) (warehouse_name : String)
    (use_client_boxes : Bool) (box_dims : Dims) :
    Except ShipError PartyCalc :=
  let calcs := skus.map
    (fun sku => compute_sku_cost cat.services sku box_dims use_client_boxes)
  let total_sum_no_ship := (calcs.map SkuCalc.sku_total_no_ship).sum
  let total_boxes := (calcs.map SkuCalc.boxes).sum
  let pz := party_palletization cat.consts total_boxes box_dims
  let pallets := pz.1
  let max_on_pallet := pz.2.1
  let pallet_cost := pz.2.2.1
  let stretch_cost := pz.2.2.2
  match party_shipping_cost cat warehouse_name total_boxes pallets with
  | Except.error e => Except.error e
  | Except.ok sc =>
      Except.ok
        { total_boxes := total_boxes, total_sum_no_ship := total_sum_no_ship,
          pallets := pallets, max_on_pallet := max_on_pallet,
          pallet_cost := pallet_cost, stretch_cost := stretch_cost,
          ship_kind := sc.1, ship_cost := sc.2,
          party_total := total_sum_no_ship + pallet_cost + stretch_cost + sc.2 }

/-! Concrete sample data used by the witnesses below. -/

/-- A labor service priced 5. -/
def sampleServiceA : Service := ⟨5, Category.rabota, "pc"⟩

/-- A consumable service priced 3. -/
def sampleServiceB : Service := ⟨3, Category.rashodniki, "pc"⟩

/-- A TK warehouse with both rates (box 30, pallet 500) and entry fee 200. -/
def sampleTK : TKRate := ⟨some 30, some 500, 200⟩

/-- A TK warehouse with only a per-pallet rate configured. -/
def palletOnlyTK : TKRate := ⟨none, some 500, 0⟩

/-- A sample catalog: one FF warehouse at 50 per box, two TK warehouses,
default constants. -/
def sampleCatalog : Catalog :=
  { services := fun n =>
      if n = "svcA" then some sampleServiceA
      else if n = "svcB" then some sampleServiceB
      else none,
    ff_warehouses := fun n => if n = "WH_FF" then some 50 else none,
    tk_warehouses := fun n =>
      if n = "WH_TK" then some sampleTK
      else if n = "WH_BAD" then some palletOnlyTK
      else none,
    consts := defaultConsts }

/-- A catalog in which the name `WH_DUAL` appears in both rate tables. -/
def dualCatalog : Catalog :=
  { services := fun _ => none,
    ff_warehouses := fun n => if n = "WH_DUAL" then some 77 else none,
    tk_warehouses := fun n => if n = "WH_DUAL" then some sampleTK else none,
    consts := defaultConsts }

/-- C1: for an intermediate-carrier (TK) warehouse, the shipping cost is
`totalBoxes × hubPerBoxRate` plus the warehouse leg plus the entry fee,
added exactly once; the leg is `pallets × perPalletRate` when pallets were
formed and a per-pallet rate is configured, and `totalBoxes × perBoxRate`
otherwise (in particular with only a per-box rate and pallets > 0, and
with both rates the per-pallet one is preferred when pallets > 0). -/
theorem C1_tk_shipping_cost (cat : Catalog) (name : String) (tk : TKRate)
    (tb p : ℤ) (h : cat.tk_warehouses name = some tk) :
    (∀ rp, tk.to_warehouse_per_pallet = some rp → 0 < p →
        party_shipping_cost cat name tb p =
          Except.ok ("tk",
            (tb : ℚ) * cat.consts.to_tk_per_box + (p : ℚ) * rp +
              tk.entry_fee)) ∧
    (∀ rb, tk.to_warehouse_per_box = some rb →
        (tk.to_warehouse_per_pallet = none ∨ ¬ 0 < p) →
        party_shipping_cost cat name tb p =
          Except.ok ("tk",
            (tb : ℚ) * cat.consts.to_tk_per_box + (tb : ℚ) * rb +
              tk.entry_fee)) := by
  constructor
  · intro rp hrp hp
    simp [party_shipping_cost, h, hrp, hp]
  · intro rb hrb hcase
    rcases hcase with hnone | hple
    · simp [party_shipping_cost, h, hnone, hrb]
    · cases hpp : tk.to_warehouse_per_pallet with
      | none => simp [party_shipping_cost, h, hpp, hrb]
      | some rp => simp [party_shipping_cost, h, hpp, hrb, hple]

/-- Witness for C1 at the sample catalog: both legs evaluated concretely
(per-pallet leg preferred with both rates and 2 pallets; per-box leg used
on the pallet-only fallback with 0 pallets). -/
theorem C1_tk_shipping_cost_witness :
    party_shipping_cost sampleCatalog "WH_TK" 20 2 =
      Except.ok ("tk", 3200) ∧
    party_shipping_cost sampleCatalog "WH_TK" 5 0 =
      Except.ok ("tk", 850) := by
  have h1 := (C1_tk_shipping_cost sampleCatalog "WH_TK" sampleTK 20 2
    (by decide)).1 500 (by decide) (by decide)
  have h2 := (C1_tk_shipping_cost sampleCatalog "WH_TK" sampleTK 5 0
    (by decide)).2 30 (by decide) (Or.inr (by decide))
  constructor
  · rw [h1]; norm_num [sampleCatalog, sampleTK, defaultConsts]
  · rw [h2]; norm_num [sampleCatalog, sampleTK, defaultConsts]

/-- C2: an item exceeding the carton on any axis is packed as
`(ceil qty, oversize := true, items-per-box := 1)`, and
`compute_sku_cost` charges it zero carton cost. -/
theorem C2_oversize_packing (services : String → Option Service) (sku : Sku)
    (box_dims : Dims) (use_client_boxes : Bool)
    (h : sku.dimensions.1 > box_dims.1 ∨ sku.dimensions.2.1 > box_dims.2.1 ∨
      sku.dimensions.2.2 > box_dims.2.2) :
    calculate_boxes_for_item sku.qty sku.dimensions box_dims =
      (⌈sku.qty⌉, true, 1) ∧
    (compute_sku_cost services sku box_dims use_client_boxes).boxes_cost
      = 0 := by
  have hpack : calculate_boxes_for_item sku.qty sku.dimensions box_dims =
      (⌈sku.qty⌉, true, 1) := by
    simp [calculate_boxes_for_item, h]
  exact ⟨hpack, by simp [compute_sku_cost, hpack]⟩

/-- Witness for C2 at qty 3.5, item (70,10,5), carton (60,40,40). -/
theorem C2_oversize_packing_witness :
    calculate_boxes_for_item (7/2) (70, 10, 5) (60, 40, 40) =
      (4, true, 1) ∧
    (compute_sku_cost sampleCatalog.services ⟨7/2, (70, 10, 5), ["svcA"]⟩
      (60, 40, 40) false).boxes_cost = 0 := by
  have h := C2_oversize_packing sampleCatalog.services
    ⟨7/2, (70, 10, 5), ["svcA"]⟩ (60, 40, 40) false (by norm_num)
  refine ⟨?_, h.2⟩
  rw [h.1]
  norm_num [Int.ceil_eq_iff]

/-- Shared evaluation: the reference carton fills a pallet with exactly 16
cartons. -/
lemma ref_carton_capacity : boxes_per_pallet_by_volume (60, 40, 40) = 16 := by
  norm_num [boxes_per_pallet_by_volume, vol, BASE_PALLET_BOX,
    BASE_BOXES_PER_PALLET]

/-- C3: below the pallet threshold no pallets are formed and the pallet and
stretch costs are zero; at or above it the pallet count is
`ceil(totalBoxes / capacity)` with cost `pallets × palletPrice` and stretch
cost `pallets × stretchPrice`; with the default threshold 10 and capacity
16, 9 boxes give 0 pallets and 10 boxes give 1 pallet. -/
theorem C3_palletization (c : Consts) (tb : ℤ) (d : Dims) :
    ((tb : ℚ) < c.pallet_threshold_boxes →
        party_palletization c tb d =
          (0, boxes_per_pallet_by_volume d, 0, 0)) ∧
    (¬ (tb : ℚ) < c.pallet_threshold_boxes →
        party_palletization c tb d =
          (⌈(tb : ℚ) / (boxes_per_pallet_by_volume d : ℚ)⌉,
           boxes_per_pallet_by_volume d,
           (⌈(tb : ℚ) / (boxes_per_pallet_by_volume d : ℚ)⌉ : ℚ) * c.pallet,
           (⌈(tb : ℚ) / (boxes_per_pallet_by_volume d : ℚ)⌉ : ℚ) *
             c.stretch)) ∧
    party_palletization defaultConsts 9 (60, 40, 40) = (0, 16, 0, 0) ∧
    (party_palletization defaultConsts 10 (60, 40, 40)).1 = 1 := by
  refine ⟨fun h => by simp [party_palletization, h],
    fun h => by simp [party_palletization, h], ?_, ?_⟩
  · norm_num [party_palletization, defaultConsts, ref_carton_capacity]
  · norm_num [party_palletization, defaultConsts, ref_carton_capacity,
      Int.ceil_eq_iff]

/-- Witness for C3: the below-threshold branch applied at 9 boxes and the
reference carton. -/
theorem C3_palletization_witness :
    party_palletization defaultConsts 9 (60, 40, 40) =
      (0, boxes_per_pallet_by_volume (60, 40, 40), 0, 0) :=
  (C3_palletization defaultConsts 9 (60, 40, 40)).1 (by norm_num [defaultConsts])

/-- C4: for a non-oversize item, items-per-box is the volume ratio clamped
up to 1 (and 1 when the item volume is not positive), the box count is
`ceil(qty / itemsPerBox)`, the oversize flag is false; concretely qty 12,
item (10,10,5), carton (60,40,40) give 192 items per box and 1 box. -/
theorem C4_items_per_box (qty : ℚ) (item_dims box_dims : Dims)
    (_hq : 0 < qty)
    (hno : ¬ (item_dims.1 > box_dims.1 ∨ item_dims.2.1 > box_dims.2.1 ∨
      item_dims.2.2 > box_dims.2.2)) :
    (calculate_boxes_for_item qty item_dims box_dims).2.2 =
      (if vol item_dims ≤ 0 then 1
       else max 1 (vol box_dims / vol item_dims)) ∧
    (calculate_boxes_for_item qty item_dims box_dims).1 =
      ⌈qty / (calculate_boxes_for_item qty item_dims box_dims).2.2⌉ ∧
    (calculate_boxes_for_item qty item_dims box_dims).2.1 = false ∧
    calculate_boxes_for_item 12 (10, 10, 5) (60, 40, 40) =
      (1, false, 192) := by
  refine ⟨?_, ?_, ?_, ?_⟩
  · simp only [calculate_boxes_for_item, if_neg hno]
    by_cases hiv : vol item_dims ≤ 0
    · simp [hiv]
    · by_cases hr : vol box_dims / vol item_dims < 1
      · simp [hiv, hr, max_eq_left hr.le]
      · simp [hiv, hr, max_eq_right (not_lt.mp hr)]
  · simp only [calculate_boxes_for_item, if_neg hno]
  · simp [calculate_boxes_for_item, if_neg hno]
  · norm_num [calculate_boxes_for_item, vol, Int.ceil_eq_iff]

/-- Witness for C4 at the concrete scenario of the claim. -/
theorem C4_items_per_box_witness :
    calculate_boxes_for_item 12 (10, 10, 5) (60, 40, 40) =
      (1, false, 192) :=
  (C4_items_per_box 12 (10, 10, 5) (60, 40, 40) (by norm_num)
    (by norm_num)).2.2.2

/-- C6 counterexample: the claim says a missing-rate error occurs exactly
when neither rate is configured, but a TK warehouse with only a per-pallet
rate still raises the error when the pallet count is 0 (here 5 boxes, 0
pallets), even though one rate is configured. -/
theorem C6_claim_counterexample :
    party_shipping_cost sampleCatalog "WH_BAD" 5 0 =
      Except.error ShipError.missingRate ∧
    sampleCatalog.tk_warehouses "WH_BAD" = some palletOnlyTK ∧
    palletOnlyTK.to_warehouse_per_pallet ≠ none := by
  refine ⟨rfl, rfl, by simp [palletOnlyTK]⟩

/-- C6 amended: for a TK warehouse the missing-rate error is raised exactly
when no per-box rate is configured and the per-pallet leg is unavailable
(no per-pallet rate, or pallet count not positive). -/
theorem C6_missing_rate_amended (cat : Catalog) (name : String) (tk : TKRate)
    (tb p : ℤ) (h : cat.tk_warehouses name = some tk) :
    party_shipping_cost cat name tb p = Except.error ShipError.missingRate ↔
      tk.to_warehouse_per_box = none ∧
        (tk.to_warehouse_per_pallet = none ∨ ¬ 0 < p) := by
  cases hpp : tk.to_warehouse_per_pallet with
  | some rp =>
    by_cases hp : 0 < p
    · simp [party_shipping_cost, h, hpp, hp]
    · cases hpb : tk.to_warehouse_per_box with
      | some rb => simp [party_shipping_cost, h, hpp, hpb, hp]
      | none => simp [party_shipping_cost, h, hpp, hpb, hp]
  | none =>
    cases hpb : tk.to_warehouse_per_box with
    | some rb => simp [party_shipping_cost, h, hpp, hpb]
    | none => simp [party_shipping_cost, h, hpp, hpb]

/-- Witness for the amended C6: the pallet-only warehouse with 0 pallets
raises the missing-rate error. -/
theorem C6_missing_rate_amended_witness :
    party_shipping_cost sampleCatalog "WH_BAD" 5 0 =
      Except.error ShipError.missingRate :=
  (C6_missing_rate_amended sampleCatalog "WH_BAD" palletOnlyTK 5 0
    rfl).mpr ⟨rfl, Or.inr (by norm_num)⟩

/-- C7: a warehouse absent from the TK table ships at
`totalBoxes × directPerBoxRate` when present in the FF table (no entry fee,
no pallet leg; concretely 20 boxes at 50 cost 1000), and raises the
unknown-warehouse error when present in neither table. -/
theorem C7_ff_shipping (cat : Catalog) (name : String) (tb p : ℤ)
    (h : cat.tk_warehouses name = none) :
    (∀ rate, cat.ff_warehouses name = some rate →
        party_shipping_cost cat name tb p =
          Except.ok ("ff", (tb : ℚ) * rate)) ∧
    (cat.ff_warehouses name = none →
        party_shipping_cost cat name tb p =
          Except.error ShipError.unknownWarehouse) ∧
    party_shipping_cost sampleCatalog "WH_FF" 20 0 =
      Except.ok ("ff", 1000) := by
  refine ⟨?_, ?_, ?_⟩
  · intro rate hr
    simp [party_shipping_cost, h, hr]
  · intro hr
    simp [party_shipping_cost, h, hr]
  · have h1 : sampleCatalog.tk_warehouses "WH_FF" = none := rfl
    have h2 : sampleCatalog.ff_warehouses "WH_FF" = some 50 := rfl
    simp [party_shipping_cost, h1, h2, show (20 : ℚ) * 50 = 1000 by norm_num]

/-- Witness for C7: both FF branches at the sample catalog. -/
theorem C7_ff_shipping_witness :
    party_shipping_cost sampleCatalog "WH_FF" 20 0 =
      Except.ok ("ff", (20 : ℚ) * 50) ∧
    party_shipping_cost sampleCatalog "nowhere" 1 0 =
      Except.error ShipError.unknownWarehouse :=
  ⟨(C7_ff_shipping sampleCatalog "WH_FF" 20 0 rfl).1 50 rfl,
   (C7_ff_shipping sampleCatalog "nowhere" 1 0 rfl).2.1 rfl⟩

/-- C8: for positive carton dimensions the pallet capacity is
`max 1 ⌊16 × vol(60,40,40) / vol(carton)⌋`, a function of the carton
dimensions only, and at the reference carton it is exactly 16. -/
theorem C8_boxes_per_pallet (d : Dims)
    (h : 0 < d.1 ∧ 0 < d.2.1 ∧ 0 < d.2.2) :
    boxes_per_pallet_by_volume d =
      max 1 ⌊(16 * vol (60, 40, 40) : ℚ) / vol d⌋ ∧
    boxes_per_pallet_by_volume (60, 40, 40) = 16 := by
  have hv : 0 < vol d := by
    have := mul_pos (mul_pos h.1 h.2.1) h.2.2
    simpa [vol, mul_assoc] using this
  constructor
  · simp only [boxes_per_pallet_by_volume, if_neg (not_le.mpr hv),
      BASE_BOXES_PER_PALLET, BASE_PALLET_BOX]
    norm_num
  · exact ref_carton_capacity

/-- Witness for C8 at the reference carton. -/
theorem C8_boxes_per_pallet_witness :
    boxes_per_pallet_by_volume (60, 40, 40) =
      max 1 ⌊(16 * vol (60, 40, 40) : ℚ) / vol (60, 40, 40)⌋ :=
  (C8_boxes_per_pallet (60, 40, 40) (by norm_num)).1

/-- The service loop of `compute_sku_cost` computes, in its two
accumulators, the per-category sums of the matched services' prices. -/
lemma svc_foldl_spec (services : String → Option Service) (l : List String)
    (w c : ℚ) :
    l.foldl (svc_fold services) (w, c) =
      (w + (((l.filterMap services).filter
          (fun s => decide (s.cat = Category.rabota))).map Service.price).sum,
       c + (((l.filterMap services).filter
          (fun s => decide (s.cat = Category.rashodniki))).map
            Service.price).sum) := by
  induction l generalizing w c with
  | nil => simp
  | cons hd tl ih =>
    cases hsvc : services hd with
    | none =>
      simp [List.foldl_cons, List.filterMap_cons, hsvc, svc_fold, ih]
    | some s =>
      cases hcat : s.cat with
      | rabota =>
        simp [List.foldl_cons, List.filterMap_cons, List.filter_cons,
          hsvc, svc_fold, hcat, ih, add_assoc]
      | rashodniki =>
        simp [List.foldl_cons, List.filterMap_cons, List.filter_cons,
          hsvc, svc_fold, hcat, ih, add_assoc]

/-- Service names absent from the catalog contribute nothing to the
accumulators of the service loop. -/
lemma svc_foldl_skip_unknown (services : String → Option Service)
    (l : List String) (acc : ℚ × ℚ) :
    (l.filter (fun n => (services n).isSome)).foldl (svc_fold services) acc =
      l.foldl (svc_fold services) acc := by
  induction l generalizing acc with
  | nil => rfl
  | cons hd tl ih =>
    cases hsvc : services hd with
    | none => simp [List.filter_cons, hsvc, svc_fold, ih]
    | some s => simp [List.filter_cons, hsvc, svc_fold, ih]

/-- C5: `compute_sku_cost` sums the matched services' prices per category
into per-unit costs, multiplies them by the quantity, charges carton cost
`boxes × BOX_PRICE` unless client cartons are used or the item is
oversize, returns the subtotal labor + consumable + carton (no shipping or
palletization term), and is unchanged when unknown service names are
dropped from the selection. -/
theorem C5_compute_sku_cost (services : String → Option Service) (sku : Sku)
    (box_dims : Dims) (ucb : Bool) :
    (compute_sku_cost services sku box_dims ucb).work_per_unit =
      (((sku.services_names.filterMap services).filter
        (fun s => decide (s.cat = Category.rabota))).map Service.price).sum ∧
    (compute_sku_cost services sku box_dims ucb).cons_per_unit =
      (((sku.services_names.filterMap services).filter
        (fun s => decide (s.cat = Category.rashodniki))).map
          Service.price).sum ∧
    (compute_sku_cost services sku box_dims ucb).work_total =
      (compute_sku_cost services sku box_dims ucb).work_per_unit *
        sku.qty ∧
    (compute_sku_cost services sku box_dims ucb).cons_total =
      (compute_sku_cost services sku box_dims ucb).cons_per_unit *
        sku.qty ∧
    (compute_sku_cost services sku box_dims ucb).boxes_cost =
      (if ucb || (compute_sku_cost services sku box_dims ucb).is_oversize
       then 0
       else ((compute_sku_cost services sku box_dims ucb).boxes : ℚ) *
         BOX_PRICE) ∧
    (compute_sku_cost services sku box_dims ucb).sku_total_no_ship =
      (compute_sku_cost services sku box_dims ucb).work_total +
        (compute_sku_cost services sku box_dims ucb).cons_total +
        (compute_sku_cost services sku box_dims ucb).boxes_cost ∧
    compute_sku_cost services
        { sku with services_names :=
            sku.services_names.filter (fun n => (services n).isSome) }
        box_dims ucb =
      compute_sku_cost services sku box_dims ucb := by
  have hs := svc_foldl_spec services sku.services_names 0 0
  simp only [zero_add, Prod.mk_zero_zero] at hs
  refine ⟨?_, ?_, ?_, ?_, ?_, ?_, ?_⟩
  · simp [compute_sku_cost, hs]
  · simp [compute_sku_cost, hs]
  · simp [compute_sku_cost]
  · simp [compute_sku_cost]
  · rcases hcb : calculate_boxes_for_item sku.qty sku.dimensions box_dims
      with ⟨bx, ov, ipb⟩
    cases ucb <;> cases ov <;> simp [compute_sku_cost, hcb]
  · simp [compute_sku_cost]
  · simp [compute_sku_cost, svc_foldl_skip_unknown]

/-- C9: the aggregated total box count and the grand total computed by the
party aggregation are invariant under permutation of the line items (the
whole party-level result is equal). -/
theorem C9_perm_invariant (cat : Catalog) (skus skus' : List Sku)
    (name : String) (ucb : Bool) (bd : Dims) (h : skus.Perm skus') :
    party_calc cat skus name ucb bd = party_calc cat skus' name ucb bd := by
  have hmap :=
    h.map (fun sku => compute_sku_cost cat.services sku bd ucb)
  have hboxes := (hmap.map SkuCalc.boxes).sum_eq
  have hsub := (hmap.map SkuCalc.sku_total_no_ship).sum_eq
  simp only [party_calc, hboxes, hsub]

/-- Witness for C9: swapping two concrete line items leaves the party
result unchanged. -/
theorem C9_perm_invariant_witness :
    party_calc sampleCatalog
        [⟨12, (10, 10, 5), ["svcA"]⟩, ⟨3, (70, 10, 5), ["svcB"]⟩]
        "WH_FF" false (60, 40, 40) =
      party_calc sampleCatalog
        [⟨3, (70, 10, 5), ["svcB"]⟩, ⟨12, (10, 10, 5), ["svcA"]⟩]
        "WH_FF" false (60, 40, 40) :=
  C9_perm_invariant sampleCatalog _ _ "WH_FF" false (60, 40, 40)
    (List.Perm.swap (⟨3, (70, 10, 5), ["svcB"]⟩ : Sku)
      (⟨12, (10, 10, 5), ["svcA"]⟩ : Sku) [])

/-- C10: a warehouse present in the TK table is always resolved by the TK
rule: the FF table is never consulted (replacing it changes nothing) and
the result is never an FF-tagged cost. -/
theorem C10_tk_over_ff (cat : Catalog) (name : String) (tk : TKRate)
    (tb p : ℤ) (h : cat.tk_warehouses name = some tk) :
    (∀ f : String → Option ℚ,
        party_shipping_cost { cat with ff_warehouses := f } name tb p =
          party_shipping_cost cat name tb p) ∧
    (∀ c : ℚ, party_shipping_cost cat name tb p ≠ Except.ok ("ff", c)) := by
  constructor
  · intro f
    simp [party_shipping_cost, h]
  · intro c hc
    have hne : ("tk" : String) ≠ "ff" := by decide
    rcases hpp : tk.to_warehouse_per_pallet with _ | rp <;>
      rcases hpb : tk.to_warehouse_per_box with _ | rb <;>
      by_cases hp : 0 < p <;>
      simp [party_shipping_cost, h, hpp, hpb, hp, hne] at hc

/-- Witness for C10 at a catalog whose name `WH_DUAL` sits in both rate
tables: emptying the FF table does not change the resolved cost. -/
theorem C10_tk_over_ff_witness :
    party_shipping_cost { dualCatalog with ff_warehouses := fun _ => none }
        "WH_DUAL" 20 2 =
      party_shipping_cost dualCatalog "WH_DUAL" 20 2 :=
  (C10_tk_over_ff dualCatalog "WH_DUAL" sampleTK 20 2 rfl).1 (fun _ => none)

end FFCalc
